import Mathlib

/-!
Verification of nano optional_ptr (src/nano/lib/optional_ptr.hpp).

The container wraps a possibly-null std::unique_ptr guarded by a per-instance
nano::mutex.  We give two complementary shallow embeddings:

1. A heap model: cells live at natural-number addresses in an explicit heap; an
   optional_ptr instance state is the optional address it owns.  Each member
   function of the source is translated to a state transformer on heap and
   instance state.  This settles the functional claims.

2. A lock-event trace model: each member function is translated to the sequence
   of lock acquisitions and releases, slot (ptr field) reads and writes, and
   cell allocations and frees it performs, in program order.  Checkers over
   traces settle the locking discipline claims.
-/

namespace NanoOptionalPtr

/-- A heap of cells at natural-number addresses.  Fresh allocations take the
address given by the counter, so allocated cells never collide. -/
structure Heap (T : Type) where
  next : Nat
  mem : Nat → Option T

/-- Allocate a fresh cell holding v; models std::make_unique followed by taking
ownership of the returned cell.  Returns the new heap and the cell address. -/
def Heap.alloc {T : Type} (h : Heap T) (v : T) : Heap T × Nat :=
  (⟨h.next + 1, fun a => if a = h.next then some v else h.mem a⟩, h.next)

/-- Release the cell at address x; models the unique_ptr deleter running. -/
def Heap.free {T : Type} (h : Heap T) (x : Nat) : Heap T :=
  ⟨h.next, fun a => if a = x then none else h.mem a⟩

/-- Read the cell at address a. -/
def Heap.read {T : Type} (h : Heap T) (a : Nat) : Option T :=
  h.mem a

/-- The state of one optional_ptr instance: the address its unique_ptr owns,
or none when the unique_ptr is null. -/
structure optional_ptr where
  ptr : Option Nat

/-- Boolean form of the side condition that an instance's owned address was
allocated below the heap counter (true of every state the public operations
can produce). -/
def ptr_below (o : optional_ptr) (n : Nat) : Bool :=
  match o.ptr with
  | some old => old < n
  | none => true

/-- Default constructor: sets ptr to nullptr. -/
def empty_ctor : optional_ptr :=
  ⟨none⟩

/-- Value constructor: ptr = std::make_unique T (value). -/
def value_ctor {T : Type} (h : Heap T) (v : T) : Heap T × optional_ptr :=
  let p := h.alloc v
  (p.1, ⟨some p.2⟩)

/-- Copy constructor: ptr = (other and other.ptr) ? make_unique T (*other.ptr)
: nullptr.  The condition is other's operator bool conjoined with a raw
null-check of other.ptr, i.e. other.ptr is non-null. -/
def copy_ctor {T : Type} [Inhabited T] (h : Heap T) (other : optional_ptr) :
    Heap T × optional_ptr :=
  match other.ptr with
  | some a =>
    let v := (h.read a).getD default
    let p := h.alloc v
    (p.1, ⟨some p.2⟩)
  | none => (h, ⟨none⟩)

/-- Copy assignment (operator= from another instance): when other is non-null,
ptr = make_unique T (*other.ptr) allocates the copy and then releases the
destination's old cell; when other is null nothing at all happens. -/
def assign_copy {T : Type} [Inhabited T] (h : Heap T) (self other : optional_ptr) :
    Heap T × optional_ptr :=
  match other.ptr with
  | some a =>
    let v := (h.read a).getD default
    let p := h.alloc v
    let h2 := match self.ptr with
      | some old => p.1.free old
      | none => p.1
    (h2, ⟨some p.2⟩)
  | none => (h, self)

/-- Value assignment (operator= from T): a new cell is allocated, swapped in
for the old handle, and the old cell (if any) is released when the local
unique_ptr holding it is destroyed at the end of the call. -/
def assign_value {T : Type} (h : Heap T) (self : optional_ptr) (v : T) :
    Heap T × optional_ptr :=
  let p := h.alloc v
  let h2 := match self.ptr with
    | some old => p.1.free old
    | none => p.1
  (h2, ⟨some p.2⟩)

/-- operator bool and is_initialized: whether the handle is non-null. -/
def is_initialized (self : optional_ptr) : Bool :=
  self.ptr.isSome

/-- Dereference / get: the owned value when present; dereferencing an empty
instance is undefined behavior in the source, modelled as none. -/
def deref {T : Type} (h : Heap T) (self : optional_ptr) : Option T :=
  self.ptr.bind h.read

/-- Compile-time admission condition of the template, from the static_assert
sizeof (T) > alignof (std::max_align_t) at the top of the class. -/
def instantiation_allowed (sizeofT alignofMax : Nat) : Bool :=
  sizeofT > alignofMax

/-! ## Lock-event traces

Instances involved in one call are numbered: 0 is the receiver (this), 1 is
the other instance of a copy operation when it is a distinct object.  A trace
lists, in program order, the actions the member function issues. -/

/-- One action issued by a member function. -/
inductive Event where
  | acquire : Nat → Event
  | release : Nat → Event
  | readSlot : Nat → Event
  | writeSlot : Nat → Event
  | allocCell : Event
  | freeCell : Event
deriving DecidableEq, BEq

/-- Trace of operator bool / is_initialized on instance j: lock_guard acquires
the mutex, the handle is read, the guard releases on return. -/
def bool_trace (j : Nat) : List Event :=
  [Event.acquire j, Event.readSlot j, Event.release j]

/-- Trace of the default constructor: ptr = nullptr under the lock. -/
def default_ctor_trace : List Event :=
  [Event.acquire 0, Event.writeSlot 0, Event.release 0]

/-- Trace of the value constructor: the allocation happens inside the lock. -/
def value_ctor_trace : List Event :=
  [Event.acquire 0, Event.allocCell, Event.writeSlot 0, Event.release 0]

/-- Trace of the copy constructor from a distinct instance 1: own lock taken,
then other's operator bool (other's own lock for its duration), then - when
other reported present - other.ptr is read and *other.ptr dereferenced with no
lock held on instance 1, the copy is allocated and the own slot written. -/
def copy_ctor_trace (otherPresent : Bool) : List Event :=
  [Event.acquire 0] ++ bool_trace 1 ++
    (if otherPresent then
      [Event.readSlot 1, Event.readSlot 1, Event.allocCell, Event.writeSlot 0]
    else
      [Event.writeSlot 0]) ++
    [Event.release 0]

/-- Trace of copy assignment.  sameInst is true when the source reference
aliases the destination (self-assignment): then other's operator bool runs on
instance 0 while instance 0's lock is already held. -/
def assign_copy_trace (sameInst otherPresent destPresent : Bool) : List Event :=
  let j := if sameInst then 0 else 1
  [Event.acquire 0] ++ bool_trace j ++
    (if otherPresent then
      [Event.readSlot j, Event.readSlot j, Event.allocCell, Event.writeSlot 0] ++
        (if destPresent then [Event.freeCell] else [])
    else []) ++
    [Event.release 0]

/-- Trace of value assignment: make_unique runs before the lock is taken, the
swap (read and write of the slot) runs under the lock, and the old cell is
released after the guard, when the local unique_ptr is destroyed. -/
def assign_value_trace (destPresent : Bool) : List Event :=
  [Event.allocCell, Event.acquire 0, Event.readSlot 0, Event.writeSlot 0,
    Event.release 0] ++
    (if destPresent then [Event.freeCell] else [])

/-- Trace of the destructor: ptr.reset (nullptr) under the lock. -/
def dtor_trace (present : Bool) : List Event :=
  [Event.acquire 0, Event.readSlot 0, Event.writeSlot 0] ++
    (if present then [Event.freeCell] else []) ++
    [Event.release 0]

/-- Trace of operator* and operator->: the handle lookup under the lock. -/
def deref_trace : List Event :=
  [Event.acquire 0, Event.readSlot 0, Event.release 0]

/-- Trace of get: under its own lock it runs debug_assert (is_initialized ()),
which in debug builds calls the locking is_initialized on the same instance;
in release builds the assert expands to nothing. -/
def get_trace (debugBuild : Bool) : List Event :=
  [Event.acquire 0] ++ (if debugBuild then bool_trace 0 else []) ++
    [Event.readSlot 0, Event.release 0]

/-- Modelled from the spec: nano::mutex comes from nano/lib/locks.hpp, which is
not part of the sources here; the spec describes it as a plain non-reentrant
mutual-exclusion lock whose reentrant acquisition from the same thread must be
avoided by construction.  deadlockAux walks a trace with the set of locks held
and reports an acquisition of a lock already held. -/
def deadlockAux : List Nat → List Event → Bool
  | _, [] => false
  | held, Event.acquire i :: rest =>
    if held.contains i then true else deadlockAux (i :: held) rest
  | held, Event.release i :: rest => deadlockAux (held.erase i) rest
  | held, _ :: rest => deadlockAux held rest

/-- A trace deadlocks when it acquires a lock it already holds. -/
def deadlocks (tr : List Event) : Bool :=
  deadlockAux [] tr

/-- Every slot read or write on instance target inside the trace happens while
target's lock is held. -/
def lockedAccessAux (target : Nat) : List Nat → List Event → Bool
  | _, [] => true
  | held, Event.acquire i :: rest => lockedAccessAux target (i :: held) rest
  | held, Event.release i :: rest => lockedAccessAux target (held.erase i) rest
  | held, Event.readSlot i :: rest =>
    (i != target || held.contains i) && lockedAccessAux target held rest
  | held, Event.writeSlot i :: rest =>
    (i != target || held.contains i) && lockedAccessAux target held rest
  | held, _ :: rest => lockedAccessAux target held rest

/-- All slot accesses of instance target in tr are under target's lock. -/
def accessesLockedFor (target : Nat) (tr : List Event) : Bool :=
  lockedAccessAux target [] tr

/-- How many times the trace acquires the lock of instance i. -/
def acquireCount (i : Nat) (tr : List Event) : Nat :=
  tr.count (Event.acquire i)

/-! Sample concrete states used by the witnesses: a one-cell heap over Nat
holding 5 at address 0, an instance owning that cell, and an empty instance. -/

def sampleHeap : Heap Nat :=
  ⟨1, fun a => if a = 0 then some 5 else none⟩

def samplePresent : optional_ptr :=
  ⟨some 0⟩

def sampleEmpty : optional_ptr :=
  ⟨none⟩

/-! ## Claims -/

/-- C1: for every destination (empty or present) and every empty source,
copy-assignment leaves the destination's state - presence, owned value, and
the whole heap - completely unchanged. -/
theorem C1_assign_copy_empty_source_unchanged {T : Type} [Inhabited T]
    (h : Heap T) (dest src : optional_ptr) (hsrc : src.ptr = none) :
    assign_copy h dest src = (h, dest) := by
  simp [assign_copy, hsrc]

/-- C1 witness: a present destination owning value 5 and an empty source. -/
theorem C1_witness :
    sampleEmpty.ptr = none ∧
      assign_copy sampleHeap samplePresent sampleEmpty = (sampleHeap, samplePresent) :=
  ⟨rfl, C1_assign_copy_empty_source_unchanged sampleHeap samplePresent sampleEmpty rfl⟩

/-- C5: construction from a value v yields a present instance whose
dereferenced value is v; the copy lives in the fresh cell at the heap counter,
and every other address of the heap is untouched, so later mutation of the
original or of any pre-existing cell cannot affect the stored copy. -/
theorem C5_value_ctor_present_independent_copy {T : Type} (h : Heap T) (v : T) :
    is_initialized (value_ctor h v).2 = true ∧
      deref (value_ctor h v).1 (value_ctor h v).2 = some v ∧
      (value_ctor h v).2.ptr = some h.next ∧
      (∀ a : Nat, a ≠ h.next → (value_ctor h v).1.read a = h.read a) := by
  refine ⟨rfl, ?_, rfl, ?_⟩
  · simp [value_ctor, Heap.alloc, deref, Heap.read]
  · intro a ha
    simp [value_ctor, Heap.alloc, Heap.read, ha]

/-- C8: a default-constructed instance is not present, and the presence query
keeps answering false on it no matter how many times it is repeated, since the
query mutates nothing. -/
theorem C8_empty_never_present :
    is_initialized empty_ctor = false ∧
      ∀ n : Nat, (List.replicate n (is_initialized empty_ctor)).all
        (fun b => !b) = true := by
  refine ⟨rfl, ?_⟩
  intro n
  induction n with
  | zero => rfl
  | succ k ih => simp [List.replicate, is_initialized, empty_ctor]

/-- C9: instantiation is rejected exactly when sizeof (T) does not exceed
alignof (std::max_align_t): the static_assert condition is false iff
sizeofT is at most alignofMax, and instantiation is accepted otherwise. -/
theorem C9_static_assert_boundary (s a : Nat) :
    (instantiation_allowed s a = false ↔ s ≤ a) ∧
      (a < s → instantiation_allowed s a = true) := by
  constructor
  · simp [instantiation_allowed]
  · intro hlt
    simp [instantiation_allowed, hlt]

/-- C4: value-assignment on any instance (empty or present) leaves it present
owning value v in the fresh cell, and releases the previously owned cell; the
trace allocates before acquiring the lock, swaps the handle strictly between
acquire and release, and frees the old cell only after the swap. -/
theorem C4_assign_value_present_and_ordering {T : Type} (h : Heap T)
    (self : optional_ptr) (v : T) (hwf : ptr_below self h.next = true) :
    is_initialized (assign_value h self v).2 = true ∧
      deref (assign_value h self v).1 (assign_value h self v).2 = some v ∧
      (∀ old : Nat, self.ptr = some old → (assign_value h self v).1.read old = none) ∧
      (∀ b : Bool,
        (assign_value_trace b).indexOf Event.allocCell <
            (assign_value_trace b).indexOf (Event.acquire 0) ∧
          (assign_value_trace b).indexOf (Event.acquire 0) <
            (assign_value_trace b).indexOf (Event.writeSlot 0) ∧
          (assign_value_trace b).indexOf (Event.writeSlot 0) <
            (assign_value_trace b).indexOf (Event.release 0)) ∧
      (assign_value_trace true).indexOf (Event.writeSlot 0) <
        (assign_value_trace true).indexOf Event.freeCell := by
  refine ⟨?_, ?_, ?_, ?_, by decide⟩
  · cases hself : self.ptr <;> rfl
  · cases hself : self.ptr with
    | none =>
      simp [assign_value, hself, Heap.alloc, Heap.free, deref, Heap.read]
    | some old =>
      have hlt : old < h.next := by simpa [ptr_below, hself] using hwf
      simp [assign_value, hself, Heap.alloc, Heap.free, deref, Heap.read,
        Nat.ne_of_gt hlt]
  · intro old hold
    simp [assign_value, hold, Heap.alloc, Heap.free, Heap.read]
  · intro b
    cases b <;> exact ⟨by decide, by decide, by decide⟩

/-- C4 witness: assigning 9 to the present sample instance owning 5. -/
theorem C4_witness :
    ptr_below samplePresent sampleHeap.next = true ∧
      is_initialized (assign_value sampleHeap samplePresent 9).2 = true ∧
      deref (assign_value sampleHeap samplePresent 9).1
          (assign_value sampleHeap samplePresent 9).2 = some 9 ∧
      (assign_value sampleHeap samplePresent 9).1.read 0 = none := by
  have hc := C4_assign_value_present_and_ordering sampleHeap samplePresent 9 (by decide)
  exact ⟨by decide, hc.1, hc.2.1, hc.2.2.1 0 rfl⟩

/-- C6: copy-construction from a present instance yields a present instance
holding the source's value at copy time in a fresh non-aliased cell, so a
subsequent assign_value on the source cannot change the copy's value; from an
empty instance it yields an empty instance. -/
theorem C6_copy_ctor_deep_copy {T : Type} [Inhabited T] (h : Heap T)
    (a : optional_ptr) :
    (∀ (addr : Nat) (v : T), a.ptr = some addr → h.read addr = some v →
      addr < h.next →
      is_initialized (copy_ctor h a).2 = true ∧
        deref (copy_ctor h a).1 (copy_ctor h a).2 = some v ∧
        (copy_ctor h a).2.ptr ≠ a.ptr ∧
        ∀ w : T, deref (assign_value (copy_ctor h a).1 a w).1
          (copy_ctor h a).2 = some v) ∧
      (a.ptr = none → copy_ctor h a = (h, ⟨none⟩)) := by
  constructor
  · intro addr v haddr hval hlt
    have hmem : h.mem addr = some v := hval
    refine ⟨?_, ?_, ?_, ?_⟩
    · simp [copy_ctor, haddr, is_initialized]
    · simp [copy_ctor, haddr, hmem, Heap.alloc, deref, Heap.read]
    · simp [copy_ctor, haddr, Heap.alloc]
      omega
    · intro w
      simp [copy_ctor, haddr, hmem, assign_value, Heap.alloc, Heap.free,
        deref, Heap.read, Nat.ne_of_gt hlt]
  · intro hnone
    simp [copy_ctor, hnone]

/-- C6 witness: copying the present sample instance owning 5, then assigning 7
to the original; the copy still dereferences to 5, and copying the empty
instance yields empty. -/
theorem C6_witness :
    samplePresent.ptr = some 0 ∧ sampleHeap.read 0 = some 5 ∧ 0 < sampleHeap.next ∧
      is_initialized (copy_ctor sampleHeap samplePresent).2 = true ∧
      deref (copy_ctor sampleHeap samplePresent).1
          (copy_ctor sampleHeap samplePresent).2 = some 5 ∧
      (copy_ctor sampleHeap samplePresent).2.ptr ≠ samplePresent.ptr ∧
      deref (assign_value (copy_ctor sampleHeap samplePresent).1 samplePresent 7).1
          (copy_ctor sampleHeap samplePresent).2 = some 5 ∧
      copy_ctor sampleHeap sampleEmpty = (sampleHeap, ⟨none⟩) := by
  have hc := C6_copy_ctor_deep_copy sampleHeap samplePresent
  have hp := hc.1 0 5 rfl (by decide) (by decide)
  have he := (C6_copy_ctor_deep_copy sampleHeap sampleEmpty).2 rfl
  exact ⟨rfl, by decide, by decide, hp.1, hp.2.1, hp.2.2.1, hp.2.2.2 7, he⟩

/-- C7: copy-assignment from a distinct present source leaves the destination
present, regardless of its prior state, owning a copy of the source's value in
the fresh cell at the heap counter - an address different from the source's
cell, so the copy never aliases it. -/
theorem C7_assign_copy_present_source {T : Type} [Inhabited T] (h : Heap T)
    (dest src : optional_ptr) (addr : Nat) (v : T)
    (hsrc : src.ptr = some addr) (hval : h.read addr = some v)
    (hlt : addr < h.next) (hdest : ptr_below dest h.next = true) :
    is_initialized (assign_copy h dest src).2 = true ∧
      deref (assign_copy h dest src).1 (assign_copy h dest src).2 = some v ∧
      (assign_copy h dest src).2.ptr = some h.next ∧
      (assign_copy h dest src).2.ptr ≠ src.ptr := by
  have hmem : h.mem addr = some v := hval
  refine ⟨?_, ?_, ?_, ?_⟩
  · cases hd : dest.ptr <;> simp [assign_copy, hsrc, hd, is_initialized]
  · cases hd : dest.ptr with
    | none =>
      simp [assign_copy, hsrc, hmem, hd, Heap.alloc, Heap.free, deref, Heap.read]
    | some old =>
      have holt : old < h.next := by simpa [ptr_below, hd] using hdest
      simp [assign_copy, hsrc, hmem, hd, Heap.alloc, Heap.free, deref, Heap.read,
        Nat.ne_of_gt holt]
  · cases hd : dest.ptr <;> simp [assign_copy, hsrc, hd, Heap.alloc]
  · cases hd : dest.ptr <;> simp [assign_copy, hsrc, hd, Heap.alloc] <;> omega

/-- C7 witness: assigning from the present sample source to a present
destination owning another cell of a two-cell heap. -/
theorem C7_witness :
    is_initialized (assign_copy (⟨2, fun a => if a = 0 then some 5 else
        if a = 1 then some 8 else none⟩ : Heap Nat) ⟨some 1⟩ samplePresent).2 = true ∧
      deref (assign_copy (⟨2, fun a => if a = 0 then some 5 else
          if a = 1 then some 8 else none⟩ : Heap Nat) ⟨some 1⟩ samplePresent).1
        (assign_copy (⟨2, fun a => if a = 0 then some 5 else
          if a = 1 then some 8 else none⟩ : Heap Nat) ⟨some 1⟩ samplePresent).2 =
        some 5 ∧
      (assign_copy (⟨2, fun a => if a = 0 then some 5 else
          if a = 1 then some 8 else none⟩ : Heap Nat) ⟨some 1⟩ samplePresent).2.ptr =
        some 2 ∧
      (assign_copy (⟨2, fun a => if a = 0 then some 5 else
          if a = 1 then some 8 else none⟩ : Heap Nat) ⟨some 1⟩ samplePresent).2.ptr ≠
        samplePresent.ptr := by
  have hc := C7_assign_copy_present_source
    (⟨2, fun a => if a = 0 then some 5 else if a = 1 then some 8 else none⟩ : Heap Nat)
    ⟨some 1⟩ samplePresent 0 5 rfl (by decide) (by decide) (by decide)
  exact ⟨hc.1, hc.2.1, hc.2.2.1, hc.2.2.2⟩

/-- C2: the claim that every public entry point acquires the instance's lock
exactly once fails at get: in debug builds get holds its own lock and then
calls the locking is_initialized on the same instance, acquiring the lock a
second time - a reentrant acquisition that deadlocks the non-reentrant mutex;
in release builds the assert vanishes and get acquires once. -/
theorem C2_get_acquires_lock_twice_in_debug :
    acquireCount 0 (get_trace true) = 2 ∧
      deadlocks (get_trace true) = true ∧
      acquireCount 0 (get_trace false) = 1 ∧
      deadlocks (get_trace false) = false := by decide

/-- C3 counterexample: copy-assignment from a distinct present source (and
likewise copy-construction) reads the source instance's handle and value
without holding the source's lock, so not every slot access happens under its
own instance's guard. -/
theorem C3_counterexample_unlocked_source_reads :
    accessesLockedFor 1 (assign_copy_trace false true false) = false ∧
      accessesLockedFor 1 (copy_ctor_trace true) = false := by decide

/-- C3 amended: every read or write of the receiver's own slot, in every
member function, happens under the receiver's own guard; and when the other
instance of a copy operation is empty, its only slot access is the presence
check under its own lock.  Only the post-check handle and value reads of a
present source escape the source's lock. -/
theorem C3_amended_own_slot_accesses_locked :
    accessesLockedFor 0 default_ctor_trace = true ∧
      accessesLockedFor 0 value_ctor_trace = true ∧
      accessesLockedFor 0 (copy_ctor_trace false) = true ∧
      accessesLockedFor 0 (copy_ctor_trace true) = true ∧
      accessesLockedFor 0 (assign_copy_trace false false false) = true ∧
      accessesLockedFor 0 (assign_copy_trace false true false) = true ∧
      accessesLockedFor 0 (assign_copy_trace false true true) = true ∧
      accessesLockedFor 0 (assign_value_trace false) = true ∧
      accessesLockedFor 0 (assign_value_trace true) = true ∧
      accessesLockedFor 0 (dtor_trace false) = true ∧
      accessesLockedFor 0 (dtor_trace true) = true ∧
      accessesLockedFor 0 deref_trace = true ∧
      accessesLockedFor 0 (get_trace false) = true ∧
      accessesLockedFor 0 (get_trace true) = true ∧
      accessesLockedFor 0 (bool_trace 0) = true ∧
      accessesLockedFor 1 (copy_ctor_trace false) = true := by decide

/-- C10: self-assignment is not value-preserving because it never completes:
with the source reference aliasing the destination, operator= holds the
instance's mutex and then evaluates the source's operator bool on the same
instance, re-acquiring the held non-reentrant lock - a deadlock - whatever the
instance's state; assignment between distinct instances does not deadlock, and
the value path evaluated at the failing input (the present sample instance
assigned to itself) would indeed preserve the value 5, confirming the claim
describes the intended behavior. -/
theorem C10_self_assignment_never_completes :
    deadlocks (assign_copy_trace true true true) = true ∧
      deadlocks (assign_copy_trace true false false) = true ∧
      deadlocks (assign_copy_trace false true true) = false ∧
      deref (assign_copy sampleHeap samplePresent samplePresent).1
        (assign_copy sampleHeap samplePresent samplePresent).2 = some 5 := by
  decide

end NanoOptionalPtr
